import Mathlib

/-!
Verification of the IntelliJect question-matching core against its
natural-language specification.  Each Python function that a claim depends
on is shallowly embedded as an executable Lean definition; external
collaborators (the SQLAlchemy engine probe, FAISS, NLTK sentence
segmentation, the PDF page search) appear as explicit oracle parameters.
-/

namespace IntelliJect

/- ## Python string primitives -/

/-- Characters Python treats as whitespace for `str.strip` and `\s`. -/
def pyIsSpace (c : Char) : Bool :=
  c = ' ' || c = '\t' || c = '\n' || c = '\r' || c = '\x0b' || c = '\x0c'

/-- Python `str.strip()` on a character list. -/
def pyStripL (l : List Char) : List Char :=
  ((l.dropWhile pyIsSpace).reverse.dropWhile pyIsSpace).reverse

/-- Python `str.strip()`. -/
def pyStrip (s : String) : String :=
  String.mk (pyStripL s.data)

/-- Collapse each maximal whitespace run to a single space
(the effect of Python `re.sub(r'\s+', ' ', s)`); `prevSp` records whether
the previous emitted character closed a whitespace run. -/
def collapseWsAux : Bool → List Char → List Char
  | _, [] => []
  | prevSp, c :: rest =>
    if pyIsSpace c then
      if prevSp then collapseWsAux true rest
      else ' ' :: collapseWsAux true rest
    else c :: collapseWsAux false rest

/-- Python `re.sub(r'\s+', ' ', s.strip())` — the normalization both the
fuzzy locator and the highlighter apply to their input text. -/
def pyCleanWs (s : String) : String :=
  String.mk (collapseWsAux false (pyStripL s.data))

/-- Python `str.split()` (no argument) on a character list: split on
whitespace runs, discarding empty fields; `acc` holds the current word's
characters in reverse. -/
def pyWordsAux : List Char → List Char → List String
  | acc, [] => if acc = [] then [] else [String.mk acc.reverse]
  | acc, c :: rest =>
    if pyIsSpace c then
      if acc = [] then pyWordsAux [] rest
      else String.mk acc.reverse :: pyWordsAux [] rest
    else pyWordsAux (c :: acc) rest

/-- Python `str.split()`. -/
def pySplitWs (s : String) : List String :=
  pyWordsAux [] s.data

/-- Python `' '.join(l)`. -/
def joinSpace : List String → String
  | [] => ""
  | [s] => s
  | s :: rest => s ++ " " ++ joinSpace rest

/-- The loop of `pyRange`, structurally recursive on a fuel bound; since
each iteration advances `start` by `step ≥ 1`, a fuel of `stop - start`
iterations always suffices (`pyRangeAux_congr`). -/
def pyRangeAux (step : Nat) : Nat → Nat → Nat → List Nat
  | 0, _, _ => []
  | fuel + 1, start, stop =>
    if start < stop then start :: pyRangeAux step fuel (start + step) stop
    else []

/-- Python `range(start, stop, step)` as a list (empty when `step = 0`,
where CPython would raise `ValueError`; no claim exercises that case). -/
def pyRange (start stop step : Nat) : List Nat :=
  if 0 < step then pyRangeAux step (stop - start) start stop else []

/-- Python slice `l[a:b]` for non-negative bounds. -/
def pySlice (l : List α) (a b : Nat) : List α :=
  (l.take b).drop a

/- ## 4.1 Persistence Gateway (src/database.py, module-level startup code) -/

/-- The three values `DATABASE_MODE` can take in `database.py`. -/
inductive DBMode where
  | postgresql
  | sqlite
  | json
deriving DecidableEq, Repr

/-- A startup environment: the `DATABASE_URL` environment variable, and
oracles for whether each engine's `SELECT 1` liveness probe (including
engine construction) succeeds. -/
structure StartupEnv where
  databaseUrl : Option String
  primaryProbeOk : Bool
  secondaryProbeOk : Bool
deriving DecidableEq

/-- Python truthiness of an optional string (`if DATABASE_URL:`):
present and non-empty. -/
def pyTruthyStr : Option String → Bool
  | some s => !(s = "")
  | none => false

/-- The module-level mode resolution of `database.py`: when `DATABASE_URL`
is truthy, try PostgreSQL and fall back to `json` on any exception;
otherwise try local SQLite and fall back to `json` on any exception. -/
def resolveDatabaseMode (env : StartupEnv) : DBMode :=
  if pyTruthyStr env.databaseUrl then
    if env.primaryProbeOk then DBMode.postgresql else DBMode.json
  else
    if env.secondaryProbeOk then DBMode.sqlite else DBMode.json

/- ## Data model (src/models.py) and session semantics -/

/-- A stored `models.PYQ` row (the `id` column is assigned by the store and
plays no role in any claim; `marks` is restricted to integers, the only
values the embedded call sites produce). -/
structure PYQ where
  subject : String
  sub_topic : String
  question : String
  marks : Int
  year : String
  semester : String
  branch : String
  unit : String
deriving DecidableEq, Repr

/-- A SQLAlchemy ORM session: rows already committed to the store, plus
rows added in the current transaction but not yet committed. -/
structure Session where
  committed : List PYQ
  pending : List PYQ
deriving DecidableEq, Repr

/-- `db.add_all(objs)`. -/
def Session.add_all (s : Session) (objs : List PYQ) : Session :=
  { s with pending := s.pending ++ objs }

/-- `db.add(obj)`. -/
def Session.add (s : Session) (obj : PYQ) : Session :=
  s.add_all [obj]

/-- `db.commit()`: moves pending rows into the store, or raises (modelled
by the `ok` oracle: any persistence error during flush or commit). -/
def Session.commit (s : Session) (ok : Bool) : Except String Session :=
  if ok then Except.ok { committed := s.committed ++ s.pending, pending := [] }
  else Except.error "persistence error"

/-- `db.rollback()`: discards all uncommitted rows. -/
def Session.rollback (s : Session) : Session :=
  { s with pending := [] }

/- ## 4.2 Question Repository (src/crud.py) -/

/-- An input dictionary passed to `store_pyqs` (`entry.get(...)` fields;
a missing key yields `none`). -/
structure PYQEntry where
  question : Option String
  sub_topic : Option String
  marks : Option Int
  year : Option String
  semester : Option String
  branch : Option String
  unit : Option String
deriving DecidableEq, Repr

/-- The object-construction loop of `store_pyqs`: a record is kept exactly
when `entry.get("question")` is truthy (present and non-empty, with no
trimming), mirroring `if not question: continue`. -/
def buildPyqObjects (subject : String) (pyqs : List PYQEntry) : List PYQ :=
  pyqs.filterMap fun entry =>
    match entry.question with
    | none => none
    | some q =>
      if q = "" then none
      else some
        { subject := subject
          sub_topic := entry.sub_topic.getD ""
          question := q
          marks := entry.marks.getD 0
          year := entry.year.getD ""
          semester := entry.semester.getD ""
          branch := entry.branch.getD ""
          unit := entry.unit.getD "" }

/-- `crud.store_pyqs(db, pyqs, subject)`: build the filtered objects, then
`add_all` + `commit` inside `try`; on any exception, `rollback` and
return 0.  `commitOk` is the persistence-error oracle. -/
def store_pyqs (s : Session) (commitOk : Bool) (pyqs : List PYQEntry)
    (subject : String) : Session × Nat :=
  if pyqs = [] then (s, 0)
  else
    let pyq_objects := buildPyqObjects subject pyqs
    let s1 := s.add_all pyq_objects
    match s1.commit commitOk with
    | Except.ok s2 => (s2, pyq_objects.length)
    | Except.error _ => (s1.rollback, 0)

/-- Modelled from the spec: "the stored count equals the number of input
records whose question field is non-empty after trimming" — the count the
claim predicts for `store_pyqs`, for comparison with the source's. -/
def specStoredCount (pyqs : List PYQEntry) : Nat :=
  (pyqs.filter (fun e => !(pyStrip (e.question.getD "") = ""))).length

/-- The placeholder row `create_subject` inserts for a new subject. -/
def placeholder_pyq (subject_name : String) : PYQ :=
  { subject := subject_name
    sub_topic := "General"
    question := "Sample question for " ++ subject_name
    marks := 1
    year := "2024"
    semester := "1"
    branch := "General"
    unit := "1" }

/-- `crud.create_subject(db, subject_name)`: no-op returning `True` when a
row with this subject exists; otherwise insert one placeholder row and
commit, rolling back and returning `False` on any exception. -/
def create_subject (s : Session) (commitOk : Bool) (subject_name : String) :
    Session × Bool :=
  if s.committed.any (fun p => p.subject = subject_name) then (s, true)
  else
    let s1 := s.add (placeholder_pyq subject_name)
    match s1.commit commitOk with
    | Except.ok s2 => (s2, true)
    | Except.error _ => (s1.rollback, false)

/-- Number of committed rows carrying a given subject. -/
def countSubject (s : Session) (name : String) : Nat :=
  (s.committed.filter (fun p => p.subject = name)).length

/- ## 4.3-4.4 Retrieval index and semantic search (src/rag_pipeline.py) -/

/-- A `langchain` `Document` built from a `PYQ` (`page_content` plus the
seven metadata fields attached by `load_vectorstore_from_db`). -/
structure Document where
  page_content : String
  year : String
  subject : String
  sub_topic : String
  marks : Int
  semester : String
  branch : String
  unit : String
deriving DecidableEq, Repr

/-- The document built for one `PYQ` row. -/
def pyqToDocument (p : PYQ) : Document :=
  { page_content := p.question
    year := p.year
    subject := p.subject
    sub_topic := p.sub_topic
    marks := p.marks
    semester := p.semester
    branch := p.branch
    unit := p.unit }

/-- The rows returned by `session.query(PYQ)` with the optional
`filter(PYQ.subject == subject)` applied when `subject` is truthy. -/
def queriedPyqs (s : Session) (subject : Option String) : List PYQ :=
  if pyTruthyStr subject then
    s.committed.filter (fun p => p.subject = subject.getD "")
  else s.committed

/-- An in-memory FAISS vectorstore over the converted documents. -/
structure FAISSStore where
  docs : List Document
deriving DecidableEq, Repr

/-- `RAGPipeline.load_vectorstore_from_db`: `None` when the (filtered)
query returns no rows, and `None` when `FAISS.from_documents` raises
(`faissOk` oracle: embedding/index construction succeeds). -/
def load_vectorstore_from_db (s : Session) (subject : Option String)
    (faissOk : Bool) : Option FAISSStore :=
  let pyqs := queriedPyqs s subject
  if pyqs = [] then none
  else if faissOk then some ⟨pyqs.map pyqToDocument⟩
  else none

/-- `RAGPipeline.semantic_search_db`: load the vectorstore, then run
`similarity_search` (an external FAISS call, modelled as an oracle that
returns `none` when it raises); every failure path returns `[]`. -/
def semantic_search_db (s : Session) (query : String) (subject : Option String)
    (k : Nat) (faissOk : Bool)
    (similarity_search : FAISSStore → String → Nat → Option (List Document)) :
    List Document :=
  match load_vectorstore_from_db s subject faissOk with
  | none => []
  | some vectorstore =>
    match similarity_search vectorstore query k with
    | some results => results
    | none => []

/- ## 4.5 Fuzzy Text Locator (src/main.py: fuzzy_text_search,
highlight_text_in_pdf) -/

/-- A bounding rectangle reported by `page.search_for`. -/
structure Rect where
  x0 : Int
  y0 : Int
  x1 : Int
  y1 : Int
deriving DecidableEq, Repr

/-- One PDF page: `search_for` is the PyMuPDF text search over the page's
text layer, and `annotOk` tells whether adding a highlight annotation for
a rectangle succeeds (the per-rectangle `try`). -/
structure Page where
  search_for : String → List Rect
  annotOk : Rect → Bool

/-- One iteration of the 3/4-word sliding-window loop of
`fuzzy_text_search` at index `i`: the 3-word chunk, plus the 4-word chunk
when `i < len(words) - 3`; returns (rectangles found, queries issued). -/
def windowPass (page : Page) (words : List String) (i : Nat) :
    List Rect × List String :=
  let q3 := joinSpace (pySlice words i (i + 3))
  let r3 := page.search_for q3
  if i < words.length - 3 then
    let q4 := joinSpace (pySlice words i (i + 4))
    (r3 ++ page.search_for q4, [q3, q4])
  else (r3, [q3])

/-- `fuzzy_text_search(pdf_page, search_text)`: normalize, try the exact
string, then for more than 3 words slide 3- and 4-word windows, else
search each individual word longer than 3 characters.  The second
component records every needle passed to `page.search_for`, in order. -/
def fuzzy_text_search (page : Page) (search_text : String) :
    List Rect × List String :=
  let clean_search := pyCleanWs search_text
  let exact_results := page.search_for clean_search
  if exact_results ≠ [] then (exact_results, [clean_search])
  else
    let words := pySplitWs clean_search
    if words.length > 3 then
      let passes := (List.range (words.length - 2)).map (windowPass page words)
      (passes.flatMap (fun p => p.1), clean_search :: passes.flatMap (fun p => p.2))
    else
      let longWords := words.filter (fun w => w.length > 3)
      (longWords.flatMap page.search_for, clean_search :: longWords)

/-- `highlight_text_in_pdf(pdf_page, text_to_highlight)`: the guard on an
empty or `"(Answer not found)"` answer, then the three-stage degradation
(full text, sentences longer than 15 characters, 4-word phrases at even
offsets when more than 4 words).  `sentTok` is NLTK `sent_tokenize`
(`none` when it raises).  Returns the `highlighted` flag and the ordered
list of every needle passed to `page.search_for`. -/
def highlight_text_in_pdf (page : Page) (sentTok : Option (String → List String))
    (text_to_highlight : String) : Bool × List String :=
  if text_to_highlight = "" ∨ pyStrip text_to_highlight = "(Answer not found)" then
    (false, [])
  else
    let clean_text := pyCleanWs text_to_highlight
    let stage1 := fuzzy_text_search page clean_text
    let h1 := stage1.1.any page.annotOk
    if h1 then (true, stage1.2)
    else
      let stage2 : Bool × List String :=
        match sentTok with
        | none => (false, [])
        | some tok =>
          let sentences := ((tok clean_text).map pyStrip).filter
            (fun sentence => sentence.length > 15)
          let passes := sentences.map (fuzzy_text_search page)
          (passes.any (fun p => p.1.any page.annotOk),
            passes.flatMap (fun p => p.2))
      if stage2.1 then (true, stage1.2 ++ stage2.2)
      else
        let words := pySplitWs clean_text
        if words.length > 4 then
          let passes := (pyRange 0 (words.length - 2) 2).map
            (fun i => fuzzy_text_search page (joinSpace (pySlice words i (i + 4))))
          (passes.any (fun p => p.1.any page.annotOk),
            stage1.2 ++ stage2.2 ++ passes.flatMap (fun p => p.2))
        else (false, stage1.2 ++ stage2.2)

/- ## Corpus ingest (src/data_loader.py: load_pyqs_from_json) -/

/-- A Python scalar as it can appear in an ingest JSON field (the value
universe the claims exercise: integers and strings). -/
inductive PyVal where
  | pint (n : Int)
  | pstr (s : String)
deriving DecidableEq, Repr

/-- Python `str(v)`. -/
def pyStrOf : PyVal → String
  | PyVal.pint n => toString n
  | PyVal.pstr s => s

/-- Python `str.isdigit()` (restricted to ASCII digits). -/
def pyIsDigitStr (s : String) : Bool :=
  !(s.data = []) && s.data.all Char.isDigit

/-- Decimal digits to a natural number. -/
def digitsToNat (l : List Char) : Nat :=
  l.foldl (fun a c => a * 10 + (c.toNat - '0'.toNat)) 0

/-- Python `int(s)` on a string: strip whitespace, optional sign, decimal
digits; `none` models the `ValueError` raised otherwise (in particular on
any string containing a decimal point). -/
def pyIntParse (s : String) : Option Int :=
  match pyStripL s.data with
  | '+' :: ds =>
    if !(ds = []) && ds.all Char.isDigit then some (digitsToNat ds) else none
  | '-' :: ds =>
    if !(ds = []) && ds.all Char.isDigit then some (-(digitsToNat ds : Int))
    else none
  | ds =>
    if !(ds = []) && ds.all Char.isDigit then some (digitsToNat ds) else none

/-- Python `int(v)` for the embedded value universe. -/
def pyIntOf : PyVal → Option Int
  | PyVal.pint n => some n
  | PyVal.pstr s => pyIntParse s

/-- The marks coercion of `load_pyqs_from_json`:
`int(v) if str(v).replace('.', '').isdigit() else 0`; `none` models the
uncaught `ValueError` that `int` can still raise inside the chosen
branch. -/
def marksCoerce (v : PyVal) : Option Int :=
  if pyIsDigitStr (String.mk ((pyStrOf v).data.filter (fun c => !(c = '.')))) then
    pyIntOf v
  else some 0

/-- One raw ingest record (`item.get(...)` fields of
`load_pyqs_from_json`; a missing key yields `none`). -/
structure IngestItem where
  sub_topic : Option String
  topic : Option String
  question : Option String
  marks : Option PyVal
  year : Option PyVal
  semester : Option String
  branch : Option String
  unit : Option String
deriving DecidableEq, Repr

/-- The dictionary built for one ingest record; `none` when evaluating the
marks coercion raises. -/
def buildIngestRecord (subject_name : String) (item : IngestItem) : Option PYQ :=
  match marksCoerce (item.marks.getD (PyVal.pint 0)) with
  | none => none
  | some m => some
    { subject := subject_name
      sub_topic := item.sub_topic.getD (item.topic.getD "General")
      question := item.question.getD ""
      marks := m
      year := pyStrOf (item.year.getD (PyVal.pstr "2024"))
      semester := item.semester.getD ""
      branch := item.branch.getD ""
      unit := item.unit.getD "" }

/-- The record loop of `load_pyqs_from_json`: build each record, keep it
when its question is non-empty after `strip()`; `none` when any record's
construction raises (the exception escapes the loop). -/
def ingestLoop (subject_name : String) : List IngestItem → Option (List PYQ)
  | [] => some []
  | item :: rest =>
    match buildIngestRecord subject_name item with
    | none => none
    | some pyq_data =>
      match ingestLoop subject_name rest with
      | none => none
      | some l =>
        if pyStrip pyq_data.question ≠ "" then some (pyq_data :: l) else some l

/-- `data_loader.load_pyqs_from_json`: the whole-file `try` returns `[]`
whenever anything inside raised. -/
def load_pyqs_from_json (subject_name : String) (items : List IngestItem) :
    List PYQ :=
  (ingestLoop subject_name items).getD []

/- ## 4.6 Chunker (src/utils.py: chunk_text, chunk_text_by_sentences;
src/rag_pipeline.py: nlp_chunk_text) -/

/-- Python `text.rfind(' ', s, e)`: the highest index `i` with
`s <= i < min e (len text)` and `text[i] = ' '`, else `none`. -/
def lastSpaceBefore (text : List Char) (s e : Nat) : Option Nat :=
  let seg := pySlice text s e
  match seg.reverse.findIdx? (fun c => c = ' ') with
  | none => none
  | some jr => some (s + (seg.length - 1 - jr))

/-- The per-iteration `end` of `chunk_text`'s loop: `start + chunk_size`,
pulled back to the last space strictly after `start` when that keeps the
chunk inside the text (`if end < text_length` / `if last_space > start`). -/
def chunkEnd (text : List Char) (chunk_size : Nat) (start : Nat) : Nat :=
  let e := start + chunk_size
  if e < text.length then
    match lastSpaceBefore text start e with
    | some last_space => if start < last_space then last_space else e
    | none => e
  else e

/-- The loop's next start position:
`start = max(start + 1, end - overlap)` (integer arithmetic; a negative
`end - overlap` loses to `start + 1` exactly as in Python). -/
def chunkNextStart (text : List Char) (chunk_size : Nat) (overlap : Int)
    (start : Nat) : Nat :=
  max (start + 1) ((chunkEnd text chunk_size start : Int) - overlap).toNat

/-- The `while start < text_length` loop of `chunk_text`, structurally
recursive on a fuel bound: emit the stripped slice when non-empty, then
advance `start`.  Since `chunkNextStart` strictly increases `start`, a
fuel of `text.length - start` iterations always suffices
(`chunkLoopAux_congr`). -/
def chunkLoopAux (text : List Char) (chunk_size : Nat) (overlap : Int) :
    Nat → Nat → List String
  | 0, _ => []
  | fuel + 1, start =>
    if start < text.length then
      let chunk := pyStrip (String.mk (pySlice text start (chunkEnd text chunk_size start)))
      let rest := chunkLoopAux text chunk_size overlap fuel
        (chunkNextStart text chunk_size overlap start)
      if chunk = "" then rest else chunk :: rest
    else []

/-- The `while` loop of `chunk_text`, started with sufficient fuel. -/
def chunkLoop (text : List Char) (chunk_size : Nat) (overlap : Int)
    (start : Nat) : List String :=
  chunkLoopAux text chunk_size overlap (text.length - start) start

/-- `utils.chunk_text(text, chunk_size, overlap)`: early return on empty
text or non-positive chunk size, otherwise the loop. -/
def chunk_text (text : String) (chunk_size : Int) (overlap : Int) : List String :=
  if text = "" then []
  else if chunk_size ≤ 0 then [text]
  else chunkLoop text.data chunk_size.toNat overlap 0

/-- `RAGPipeline.nlp_chunk_text(text, max_sentences)`: group the NLTK
sentences by `max_sentences` and join with single spaces; when anything in
the NLTK path raises (`sentTok = none`), fall back to
`[text[i:i+1000] for i in range(0, len(text), 1000)]`. -/
def nlp_chunk_text (sentTok : Option (String → List String)) (text : String)
    (max_sentences : Nat) : List String :=
  match sentTok with
  | some tok =>
    let sentences := tok text
    (pyRange 0 sentences.length max_sentences).map
      (fun i => joinSpace (pySlice sentences i (i + max_sentences)))
  | none =>
    (pyRange 0 text.data.length 1000).map
      (fun i => String.mk (pySlice text.data i (i + 1000)))

/-- `utils.chunk_text_by_sentences(text, max_sentences)`: like
`nlp_chunk_text` but stripping each chunk, and falling back to
`chunk_text(text, chunk_size=1000)` — with `overlap` left at its default
of 50 — when NLTK is unavailable. -/
def chunk_text_by_sentences (sentTok : Option (String → List String))
    (text : String) (max_sentences : Nat) : List String :=
  match sentTok with
  | some tok =>
    let sentences := tok text
    (pyRange 0 sentences.length max_sentences).map
      (fun i => pyStrip (joinSpace (pySlice sentences i (i + max_sentences))))
  | none => chunk_text text 1000 50

/-- Modelled from the spec: "falls back to fixed-size character chunking
(chunk size 1000, no overlap)" generalized over the chunk size — the
consecutive non-overlapping `k`-element groups of a list, for comparison
with the source's `range`-based comprehension. -/
def chunksOfSpecAux (k : Nat) : Nat → List α → List (List α)
  | 0, _ => []
  | fuel + 1, l =>
    if 0 < k ∧ 0 < l.length then l.take k :: chunksOfSpecAux k fuel (l.drop k)
    else []

/-- The consecutive non-overlapping `k`-element groups, with sufficient
fuel. -/
def chunksOfSpec (k : Nat) (l : List α) : List (List α) :=
  chunksOfSpecAux k l.length l

/- ## Helper lemmas -/

/-- Any fuel of at least `stop - start` gives `pyRangeAux` the same value:
each iteration advances `start` by `step ≥ 1`. -/
theorem pyRangeAux_congr (step : Nat) (hstep : 0 < step) :
    ∀ (f1 f2 start stop : Nat), stop - start ≤ f1 → stop - start ≤ f2 →
      pyRangeAux step f1 start stop = pyRangeAux step f2 start stop := by
  intro f1
  induction f1 with
  | zero =>
    intro f2 start stop h1 h2
    cases f2 with
    | zero => rfl
    | succ f2 =>
      simp only [pyRangeAux]
      rw [if_neg (by omega)]
  | succ f1 ih =>
    intro f2 start stop h1 h2
    cases f2 with
    | zero =>
      simp only [pyRangeAux]
      rw [if_neg (by omega)]
    | succ f2 =>
      simp only [pyRangeAux]
      by_cases hlt : start < stop
      · rw [if_pos hlt, if_pos hlt,
          ih f2 (start + step) stop (by omega) (by omega)]
      · rw [if_neg hlt, if_neg hlt]

/-- Unfolding equation for `pyRange` with a positive step. -/
theorem pyRange_eq (start stop step : Nat) (hstep : 0 < step) :
    pyRange start stop step =
      if start < stop then start :: pyRange (start + step) stop step else [] := by
  simp only [pyRange, if_pos hstep]
  by_cases hlt : start < stop
  · rw [if_pos hlt]
    have hd : stop - start = (stop - start - 1) + 1 := by omega
    rw [hd]
    simp only [pyRangeAux]
    rw [if_pos hlt]
    congr 1
    exact pyRangeAux_congr step hstep _ _ _ _ (by omega) (by omega)
  · rw [if_neg hlt]
    have hd : stop - start = 0 := by omega
    rw [hd]
    rfl

/-- Any fuel of at least `l.length` gives `chunksOfSpecAux` the same
value. -/
theorem chunksOfSpecAux_congr (k : Nat) :
    ∀ (f1 f2 : Nat) (l : List α), l.length ≤ f1 → l.length ≤ f2 →
      chunksOfSpecAux k f1 l = chunksOfSpecAux k f2 l := by
  intro f1
  induction f1 with
  | zero =>
    intro f2 l h1 h2
    cases f2 with
    | zero => rfl
    | succ f2 =>
      simp only [chunksOfSpecAux]
      rw [if_neg (by omega)]
  | succ f1 ih =>
    intro f2 l h1 h2
    cases f2 with
    | zero =>
      simp only [chunksOfSpecAux]
      rw [if_neg (by omega)]
    | succ f2 =>
      simp only [chunksOfSpecAux]
      by_cases hc : 0 < k ∧ 0 < l.length
      · rw [if_pos hc, if_pos hc]
        congr 1
        exact ih f2 (l.drop k) (by rw [List.length_drop]; omega)
          (by rw [List.length_drop]; omega)
      · rw [if_neg hc, if_neg hc]

/-- Unfolding equation for `chunksOfSpec`. -/
theorem chunksOfSpec_eq (k : Nat) (l : List α) :
    chunksOfSpec k l =
      if 0 < k ∧ 0 < l.length then l.take k :: chunksOfSpec k (l.drop k)
      else [] := by
  unfold chunksOfSpec
  by_cases hc : 0 < k ∧ 0 < l.length
  · rw [if_pos hc]
    have hl : l.length = (l.length - 1) + 1 := by omega
    rw [hl]
    simp only [chunksOfSpecAux]
    rw [if_pos hc]
    congr 1
    exact chunksOfSpecAux_congr k (l.length - 1) (l.drop k).length (l.drop k)
      (by rw [List.length_drop]; omega) (le_refl _)
  · rw [if_neg hc]
    rcases hf : l.length with _ | f
    · rfl
    · simp only [chunksOfSpecAux]
      rw [if_neg hc]

/-- The loop variant of `chunk_text`: the next start position strictly
exceeds the current one, whatever the overlap. -/
theorem chunkNextStart_gt (text : List Char) (chunk_size : Nat) (overlap : Int)
    (start : Nat) : start < chunkNextStart text chunk_size overlap start := by
  have h := Nat.le_max_left (start + 1)
    ((chunkEnd text chunk_size start : Int) - overlap).toNat
  unfold chunkNextStart
  omega

/-- Any fuel of at least `text.length - start` gives `chunkLoopAux` the
same value, because `chunkNextStart` strictly increases `start`. -/
theorem chunkLoopAux_congr (text : List Char) (chunk_size : Nat) (overlap : Int) :
    ∀ (f1 f2 start : Nat), text.length - start ≤ f1 → text.length - start ≤ f2 →
      chunkLoopAux text chunk_size overlap f1 start =
        chunkLoopAux text chunk_size overlap f2 start := by
  intro f1
  induction f1 with
  | zero =>
    intro f2 start h1 h2
    cases f2 with
    | zero => rfl
    | succ f2 =>
      simp only [chunkLoopAux]
      rw [if_neg (by omega)]
  | succ f1 ih =>
    intro f2 start h1 h2
    cases f2 with
    | zero =>
      simp only [chunkLoopAux]
      rw [if_neg (by omega)]
    | succ f2 =>
      simp only [chunkLoopAux]
      by_cases hlt : start < text.length
      · rw [if_pos hlt, if_pos hlt]
        have hn := chunkNextStart_gt text chunk_size overlap start
        rw [ih f2 (chunkNextStart text chunk_size overlap start)
          (by omega) (by omega)]
      · rw [if_neg hlt, if_neg hlt]

/-- When keeping a `filterMap` entry coincides with a Boolean predicate,
the surviving lengths agree. -/
theorem length_filterMap_eq (f : α → Option β) (p : α → Bool)
    (h : ∀ a, (f a).isSome = p a) :
    ∀ l : List α, (l.filterMap f).length = (l.filter p).length := by
  intro l
  induction l with
  | nil => rfl
  | cons a rest ih =>
    rw [List.filterMap_cons, List.filter_cons]
    rcases hfa : f a with _ | b
    · have hp : p a = false := by rw [← h a, hfa]; rfl
      rw [hp]
      simpa using ih
    · have hp : p a = true := by rw [← h a, hfa]; rfl
      rw [hp]
      simp only [if_true, List.length_cons]
      omega

/-- `create_subject` is a no-op when a row with the subject exists. -/
theorem create_subject_noop (s : Session) (ok : Bool) (name : String)
    (hex : s.committed.any (fun p => p.subject = name) = true) :
    create_subject s ok name = (s, true) := by
  unfold create_subject
  rw [if_pos hex]

/-- On a fresh subject with a successful commit, `create_subject` appends
exactly the placeholder row. -/
theorem create_subject_insert (s : Session) (name : String)
    (hp : s.pending = [])
    (hex : s.committed.any (fun p => p.subject = name) = false) :
    create_subject s true name =
      ({ committed := s.committed ++ [placeholder_pyq name], pending := [] },
        true) := by
  simp [create_subject, hex, Session.add, Session.add_all, Session.commit, hp]

/-- On a fresh subject with a failing commit, `create_subject` rolls back
and leaves the session unchanged. -/
theorem create_subject_fail (s : Session) (name : String)
    (hp : s.pending = [])
    (hex : s.committed.any (fun p => p.subject = name) = false) :
    create_subject s false name = (s, false) := by
  simp [create_subject, hex, Session.add, Session.add_all, Session.commit,
    Session.rollback]
  cases s
  simp_all

/-- The `range`-based comprehension over step `k` computes exactly the
consecutive non-overlapping `k`-element groups. -/
theorem pyRange_slices (k : Nat) (hk : 0 < k) :
    ∀ (n : Nat) (L : List α) (s : Nat), L.length - s ≤ n →
      (pyRange s L.length k).map (fun i => pySlice L i (i + k)) =
        chunksOfSpec k (L.drop s) := by
  intro n
  induction n with
  | zero =>
    intro L s h
    rw [pyRange_eq _ _ _ hk, if_neg (by omega), List.map_nil, chunksOfSpec_eq,
      if_neg (by rw [List.length_drop]; omega)]
  | succ n ih =>
    intro L s h
    by_cases hs : s < L.length
    · rw [pyRange_eq _ _ _ hk, if_pos hs, List.map_cons, chunksOfSpec_eq,
        if_pos (by rw [List.length_drop]; omega)]
      congr 1
      · unfold pySlice
        rw [List.drop_take]
        congr 1
        omega
      · rw [List.drop_drop]
        exact ih L (s + k) (by omega)
    · rw [pyRange_eq _ _ _ hk, if_neg hs, List.map_nil, chunksOfSpec_eq,
        if_neg (by rw [List.length_drop]; omega)]

/- ## Claim theorems -/

/-- C1, counterexample: in a startup environment where the primary
connection string is set, the primary probe fails and the secondary probe
would succeed, `database.py` resolves to flat-file (`json`) mode — the
secondary (SQLite) store is never attempted, contradicting the claimed
ladder, which requires mode `sqlite` here. -/
theorem c1_counterexample :
    resolveDatabaseMode
      { databaseUrl := some "postgresql://primary/db", primaryProbeOk := false,
        secondaryProbeOk := true } = DBMode.json ∧
    DBMode.json ≠ DBMode.sqlite := by
  decide

/-- C1, amended: the startup ladder actually branches on whether the
primary connection string is set.  When it is set: probe the primary;
success gives `postgresql`, failure gives `json` directly.  When it is
not set: probe the local secondary; success gives `sqlite`, failure gives
`json`.  The secondary store is attempted only when the primary
connection string is absent. -/
theorem c1_amended (env : StartupEnv) :
    (pyTruthyStr env.databaseUrl = true → env.primaryProbeOk = true →
      resolveDatabaseMode env = DBMode.postgresql) ∧
    (pyTruthyStr env.databaseUrl = true → env.primaryProbeOk = false →
      resolveDatabaseMode env = DBMode.json) ∧
    (pyTruthyStr env.databaseUrl = false → env.secondaryProbeOk = true →
      resolveDatabaseMode env = DBMode.sqlite) ∧
    (pyTruthyStr env.databaseUrl = false → env.secondaryProbeOk = false →
      resolveDatabaseMode env = DBMode.json) := by
  unfold resolveDatabaseMode
  refine ⟨?_, ?_, ?_, ?_⟩ <;> intro h1 h2 <;> simp [h1, h2]

/-- Witness for C1's amended theorem at a concrete environment. -/
theorem c1_amended_witness :
    resolveDatabaseMode
      { databaseUrl := some "postgresql://primary/db", primaryProbeOk := false,
        secondaryProbeOk := true } = DBMode.json :=
  (c1_amended _).2.1 (by decide) rfl

/-- C2, counterexample: a batch with one whitespace-only question is
stored in full (`store_pyqs` reports 1) although the claim's trimmed
count is 0 — `store_pyqs` drops only absent or empty questions and does
not trim. -/
theorem c2_counterexample :
    (store_pyqs ⟨[], []⟩ true
      [{ question := some " ", sub_topic := none, marks := none, year := none,
         semester := none, branch := none, unit := none }] "S").2 = 1 ∧
    specStoredCount
      [{ question := some " ", sub_topic := none, marks := none, year := none,
         semester := none, branch := none, unit := none }] = 0 := by
  decide

/-- C2, amended: on a successful commit, the count `store_pyqs` returns
equals the number of input records whose question field is present and
non-empty, with no trimming: whitespace-only questions are kept, and
records failing the check are dropped silently at record level without
failing the batch. -/
theorem c2_amended (s : Session) (pyqs : List PYQEntry) (subject : String) :
    (store_pyqs s true pyqs subject).2 =
      (pyqs.filter (fun e => !(e.question.getD "" = ""))).length := by
  unfold store_pyqs
  by_cases hp : pyqs = []
  · rw [if_pos hp, hp]
    rfl
  · rw [if_neg hp]
    show (buildPyqObjects subject pyqs).length = _
    unfold buildPyqObjects
    refine length_filterMap_eq _ _ ?_ pyqs
    intro e
    rcases e.question with _ | q
    · rfl
    · by_cases hq : q = "" <;> simp [hq]

/-- C3: when the commit raises, `store_pyqs` rolls the transaction back —
the session is exactly as before the call (no record of the batch
remains) — and reports 0 instead of raising. -/
theorem c3_atomic (s : Session) (pyqs : List PYQEntry) (subject : String)
    (hp : s.pending = []) :
    (store_pyqs s false pyqs subject).1 = s ∧
    (store_pyqs s false pyqs subject).2 = 0 := by
  unfold store_pyqs
  by_cases h : pyqs = []
  · rw [if_pos h]
    exact ⟨rfl, rfl⟩
  · rw [if_neg h]
    refine ⟨?_, rfl⟩
    show Session.rollback (s.add_all (buildPyqObjects subject pyqs)) = s
    unfold Session.rollback Session.add_all
    cases s
    simp_all

/-- Witness for C3 at a concrete session and batch. -/
theorem c3_atomic_witness :
    (store_pyqs ⟨[], []⟩ false
      [{ question := some "What is a firewall?", sub_topic := none,
         marks := some 5, year := some "2023", semester := none, branch := none,
         unit := none }] "Cyber Security").1 = (⟨[], []⟩ : Session) ∧
    (store_pyqs ⟨[], []⟩ false
      [{ question := some "What is a firewall?", sub_topic := none,
         marks := some 5, year := some "2023", semester := none, branch := none,
         unit := none }] "Cyber Security").2 = 0 :=
  c3_atomic ⟨[], []⟩ _ "Cyber Security" rfl

/-- C4: `semantic_search_db` returns the empty list — rather than
raising — whenever the (subject-filtered) question set is empty or
embedding/index construction fails, for every query text and `k`. -/
theorem c4_search_empty (s : Session) (query : String) (subject : Option String)
    (k : Nat) (faissOk : Bool)
    (similarity_search : FAISSStore → String → Nat → Option (List Document))
    (h : queriedPyqs s subject = [] ∨ faissOk = false) :
    semantic_search_db s query subject k faissOk similarity_search = [] := by
  unfold semantic_search_db load_vectorstore_from_db
  rcases h with h | h
  · simp [h]
  · rw [h]
    by_cases hq : queriedPyqs s subject = [] <;> simp [hq]

/-- Witness for C4: an empty store, and separately a failing index build,
both give an empty result. -/
theorem c4_search_empty_witness :
    semantic_search_db ⟨[], []⟩ "firewall" none 5 true
      (fun vs _ _ => some vs.docs) = [] ∧
    semantic_search_db
      ⟨[{ subject := "Cyber Security", sub_topic := "General",
          question := "What is a firewall?", marks := 5, year := "2023",
          semester := "", branch := "", unit := "" }], []⟩
      "firewall" none 5 false (fun vs _ _ => some vs.docs) = [] := by
  constructor
  · exact c4_search_empty ⟨[], []⟩ "firewall" none 5 true
      (fun vs _ _ => some vs.docs) (Or.inl rfl)
  · exact c4_search_empty
      ⟨[{ subject := "Cyber Security", sub_topic := "General",
          question := "What is a firewall?", marks := 5, year := "2023",
          semester := "", branch := "", unit := "" }], []⟩
      "firewall" none 5 false (fun vs _ _ => some vs.docs) (Or.inr rfl)

/-- C5: `create_subject` is idempotent — when any row with subject `X`
exists the call is a no-op returning success, and two successive calls
never insert more than one placeholder row for `X`. -/
theorem c5_idempotent (s : Session) (ok1 ok2 : Bool) (name : String)
    (hp : s.pending = []) :
    (∀ ok, s.committed.any (fun p => p.subject = name) = true →
      create_subject s ok name = (s, true)) ∧
    countSubject (create_subject (create_subject s ok1 name).1 ok2 name).1 name ≤
      countSubject s name + 1 := by
  refine ⟨fun ok hex => create_subject_noop s ok name hex, ?_⟩
  by_cases hex : s.committed.any (fun p => p.subject = name) = true
  · rw [create_subject_noop s ok1 name hex, create_subject_noop s ok2 name hex]
    show countSubject s name ≤ countSubject s name + 1
    omega
  · have hex2 : s.committed.any (fun p => p.subject = name) = false := by
      simpa using hex
    cases ok1 with
    | true =>
      rw [create_subject_insert s name hp hex2]
      have hany : (s.committed ++ [placeholder_pyq name]).any
          (fun p => p.subject = name) = true := by
        rw [List.any_append]
        simp [placeholder_pyq]
      rw [create_subject_noop _ ok2 name hany]
      unfold countSubject
      rw [List.filter_append]
      simp [placeholder_pyq]
    | false =>
      rw [create_subject_fail s name hp hex2]
      cases ok2 with
      | true =>
        rw [create_subject_insert s name hp hex2]
        unfold countSubject
        rw [List.filter_append]
        simp [placeholder_pyq]
      | false =>
        rw [create_subject_fail s name hp hex2]
        show countSubject s name ≤ countSubject s name + 1
        omega

/-- Witness for C5 at a concrete empty store: two calls leave at most one
`"X"` row. -/
theorem c5_idempotent_witness :
    countSubject
      (create_subject (create_subject ⟨[], []⟩ true "X").1 true "X").1 "X" ≤
      countSubject ⟨[], []⟩ "X" + 1 :=
  (c5_idempotent ⟨[], []⟩ true true "X" rfl).2

/-- C6: when the answer string is empty or strips to the literal sentinel
`"(Answer not found)"`, the locator returns no regions and issues no
search over the page at all (its query log is empty). -/
theorem c6_short_circuit (page : Page) (sentTok : Option (String → List String))
    (text_to_highlight : String)
    (h : text_to_highlight = "" ∨
      pyStrip text_to_highlight = "(Answer not found)") :
    highlight_text_in_pdf page sentTok text_to_highlight = (false, []) := by
  unfold highlight_text_in_pdf
  rw [if_pos h]

/-- Witness for C6: even on a page whose search always finds a region,
the sentinel answer yields no regions and no searches. -/
theorem c6_short_circuit_witness :
    highlight_text_in_pdf
      { search_for := fun _ => [⟨0, 0, 1, 1⟩], annotOk := fun _ => true }
      none "(Answer not found)" = (false, []) :=
  c6_short_circuit _ none "(Answer not found)" (Or.inr (by decide))

/-- C7, counterexample: the answer `"alpha beta gamma delta"` has exactly
4 words, its exact-normalized search fails, and on a page where only the
single word `"alpha"` occurs the locator returns no regions — whereas the
claimed per-word search would return the `"alpha"` region.  So 4-word
answers do not use the per-word fallback. -/
theorem c7_counterexample :
    (pySplitWs (pyCleanWs "alpha beta gamma delta")).length = 4 ∧
    (fuzzy_text_search
      { search_for := fun q => if q = "alpha" then [⟨0, 0, 1, 1⟩] else [],
        annotOk := fun _ => true } "alpha beta gamma delta").1 = [] ∧
    ((pySplitWs (pyCleanWs "alpha beta gamma delta")).filter
        (fun w => w.length > 3)).flatMap
      (fun q => if q = "alpha" then [(⟨0, 0, 1, 1⟩ : Rect)] else []) =
      [⟨0, 0, 1, 1⟩] := by
  decide

/-- C7, amended: the per-word fallback applies to answers of 3 words or
fewer (not 4): when the exact-normalized search fails and the normalized
answer has at most 3 words, the result is the concatenated union of the
matches of each individual word longer than 3 characters. -/
theorem c7_amended (page : Page) (search_text : String)
    (hex : page.search_for (pyCleanWs search_text) = [])
    (hlen : (pySplitWs (pyCleanWs search_text)).length ≤ 3) :
    (fuzzy_text_search page search_text).1 =
      ((pySplitWs (pyCleanWs search_text)).filter
        (fun w => w.length > 3)).flatMap page.search_for := by
  simp only [fuzzy_text_search]
  rw [hex, if_neg (by simp), if_neg (by omega)]

/-- Witness for C7's amended theorem: a 2-word answer whose exact search
fails falls back to its only long word. -/
theorem c7_amended_witness :
    (fuzzy_text_search
      { search_for := fun q => if q = "dogs" then [⟨2, 2, 3, 3⟩] else [],
        annotOk := fun _ => true } "cat dogs").1 = [⟨2, 2, 3, 3⟩] :=
  (c7_amended
    { search_for := fun q => if q = "dogs" then [⟨2, 2, 3, 3⟩] else [],
      annotOk := fun _ => true } "cat dogs" (by decide) (by decide)).trans
    (by decide)

/-- C8: evaluated at a record whose marks field is the string `"2.5"` —
which the code's own numeric-looking guard accepts — the `int()` coercion
raises (modelled as `none`), the exception escapes the per-record
handling, and the whole-file handler returns `[]`, losing even the
preceding valid record.  This contradicts the claim (and the guard's
evident intent) that numeric-looking marks are coerced without failing
the file. -/
theorem c8_marks_coercion_raises :
    pyIsDigitStr (String.mk ((pyStrOf (PyVal.pstr "2.5")).data.filter
      (fun c => !(c = '.')))) = true ∧
    marksCoerce (PyVal.pstr "2.5") = none ∧
    load_pyqs_from_json "S"
      [{ sub_topic := none, topic := none, question := some "Define X.",
         marks := some (PyVal.pint 5), year := none, semester := none,
         branch := none, unit := none },
       { sub_topic := none, topic := none, question := some "What is Y?",
         marks := some (PyVal.pstr "2.5"), year := none, semester := none,
         branch := none, unit := none }] = [] ∧
    load_pyqs_from_json "S"
      [{ sub_topic := none, topic := none, question := some "Define X.",
         marks := some (PyVal.pint 5), year := none, semester := none,
         branch := none, unit := none }] ≠ [] := by
  decide

set_option maxRecDepth 100000 in
/-- C9, counterexample: on a 1100-character text with no spaces,
`chunk_text_by_sentences` without sentence segmentation produces chunks
of lengths 1000 and 150 — its fallback is `chunk_text` with chunk size
1000 and the default overlap of 50 — while the claimed consecutive
non-overlapping 1000-character slices have lengths 1000 and 100. -/
theorem c9_counterexample :
    (chunk_text_by_sentences none (String.mk (List.replicate 1100 'a')) 5).map
        String.length = [1000, 150] ∧
    ((chunksOfSpec 1000 (String.mk (List.replicate 1100 'a')).data).map
        String.mk).map String.length = [1000, 100] ∧
    chunk_text_by_sentences none (String.mk (List.replicate 1100 'a')) 5 ≠
      (chunksOfSpec 1000 (String.mk (List.replicate 1100 'a')).data).map
        String.mk := by
  decide

/-- C9, amended: it is `nlp_chunk_text` — the RAG pipeline's chunker —
whose fallback is exactly the consecutive non-overlapping 1000-character
slices of the text, and whose main path groups the sentences, in order,
into chunks of at most `max_sentences` joined with single spaces;
`chunk_text_by_sentences` instead delegates its fallback to `chunk_text`
with its default overlap of 50. -/
theorem c9_amended :
    (∀ text : String,
      nlp_chunk_text none text 5 =
        (chunksOfSpec 1000 text.data).map String.mk) ∧
    (∀ (tok : String → List String) (text : String) (max_sentences : Nat),
      0 < max_sentences →
      nlp_chunk_text (some tok) text max_sentences =
        (chunksOfSpec max_sentences (tok text)).map joinSpace) := by
  constructor
  · intro text
    show (pyRange 0 text.data.length 1000).map
        (fun i => String.mk (pySlice text.data i (i + 1000))) = _
    have h := pyRange_slices 1000 (by omega) text.data.length text.data 0
      (by omega)
    rw [List.drop_zero] at h
    rw [← h, List.map_map]
    rfl
  · intro tok text max_sentences hms
    show (pyRange 0 (tok text).length max_sentences).map
        (fun i => joinSpace (pySlice (tok text) i (i + max_sentences))) = _
    have h := pyRange_slices max_sentences hms (tok text).length (tok text) 0
      (by omega)
    rw [List.drop_zero] at h
    rw [← h, List.map_map]
    rfl

/-- Witness for C9's amended theorem at a concrete tokenizer and group
size. -/
theorem c9_amended_witness :
    nlp_chunk_text (some (fun _ => ["s1", "s2", "s3"])) "irrelevant" 2 =
      (chunksOfSpec 2 ((fun (_ : String) => ["s1", "s2", "s3"]) "irrelevant")).map
        joinSpace :=
  c9_amended.2 (fun _ => ["s1", "s2", "s3"]) "irrelevant" 2 (by decide)

/-- C10: `chunk_text`'s loop terminates on every text, chunk size and
overlap — including every overlap at least the chunk size — because the
next start position `max(start + 1, end - overlap)` strictly exceeds the
current one; consequently `text.length - start` iterations of fuel always
suffice, and the loop's value is independent of any fuel at least that
bound. -/
theorem c10_chunk_text_terminates (text : List Char) (chunk_size : Nat)
    (overlap : Int) (start : Nat) :
    start < chunkNextStart text chunk_size overlap start ∧
    (∀ f1 f2 : Nat, text.length - start ≤ f1 → text.length - start ≤ f2 →
      chunkLoopAux text chunk_size overlap f1 start =
        chunkLoopAux text chunk_size overlap f2 start) :=
  ⟨chunkNextStart_gt text chunk_size overlap start,
   fun f1 f2 h1 h2 =>
     chunkLoopAux_congr text chunk_size overlap f1 f2 start h1 h2⟩

/-- Witness for C10 at a concrete text with overlap exceeding the chunk
size. -/
theorem c10_chunk_text_terminates_witness :
    0 < chunkNextStart ['a', 'b', ' ', 'c'] 2 7 0 ∧
    chunkLoopAux ['a', 'b', ' ', 'c'] 2 7 9 0 =
      chunkLoopAux ['a', 'b', ' ', 'c'] 2 7 4 0 :=
  ⟨(c10_chunk_text_terminates ['a', 'b', ' ', 'c'] 2 7 0).1,
   (c10_chunk_text_terminates ['a', 'b', ' ', 'c'] 2 7 0).2 9 4
     (by decide) (by decide)⟩

end IntelliJect
